import Mathlib

/-!
# nginx-mailer: a shallow embedding of the mail-dispatch client

Source files embedded here:

* `internal/email/email.go`     (`escapeHTML`, `buildEmailBody`, `loginAuth`,
  `SendContactEmail`, `sendWithTLS`, `sendWithSTARTTLS`)
* `internal/handler/contact.go` (`ContactHandler`, `sendError`)

Go strings are immutable byte sequences, so a Go `string` (and a `[]byte`) is a
`List UInt8` here. String constants of the source are written as Lean string
literals and turned into their UTF-8 bytes by `str`.
-/

set_option autoImplicit false

namespace NginxMailer

/-! ## Go strings -/

/-- A Go `string`: a sequence of bytes. -/
abbrev GoString := List UInt8

/-- The UTF-8 bytes of a string constant of the source. -/
def str (s : String) : GoString := s.data.flatMap String.utf8EncodeChar

/-- Go `strings.Contains(s, substr)`: `substr` occurs in `s` at some byte offset. -/
def Contains : GoString → GoString → Bool
  | [], substr => substr.isEmpty
  | c :: cs, substr => substr.isPrefixOf (c :: cs) || Contains cs substr

/-- The scanning loop of `strings.Replace` for a non-empty `old`: non-overlapping
occurrences of `old` are replaced left to right. The counter is the number of
bytes of an occurrence of `old` that are still to be skipped. -/
def replaceFrom (old new : GoString) : Nat → GoString → GoString
  | _, [] => []
  | k + 1, _ :: cs => replaceFrom old new k cs
  | 0, c :: cs =>
    if old.isPrefixOf (c :: cs) then new ++ replaceFrom old new (old.length - 1) cs
    else c :: replaceFrom old new 0 cs

/-- Go `strings.ReplaceAll(s, old, new)` for a non-empty `old`, which is the only
way `email.go` calls it. (With an empty `old` Go inserts `new` around every rune;
that case is not modelled and the string is returned as it is.) -/
def ReplaceAll (s old new : GoString) : GoString :=
  match old with
  | [] => s
  | _ :: _ => if old = new then s else replaceFrom old new 0 s

/-! ## `escapeHTML` (email.go, lines 312-319) -/

/-- The five sequential `strings.ReplaceAll` passes of `escapeHTML`. -/
def escapeHTML (s : GoString) : GoString :=
  let s := ReplaceAll s (str "&") (str "&amp;")
  let s := ReplaceAll s (str "<") (str "&lt;")
  let s := ReplaceAll s (str ">") (str "&gt;")
  let s := ReplaceAll s (str "\"") (str "&quot;")
  let s := ReplaceAll s (str "'") (str "&#39;")
  s

/-- What the specification says of one character: the entity that stands for
it, or the character itself. The five special characters are ASCII, so each is
one byte: `&` is 38, `<` is 60, `>` is 62, `"` is 34 and the apostrophe is 39. -/
def escapeByte (c : UInt8) : GoString :=
  if c = 38 then str "&amp;"
  else if c = 60 then str "&lt;"
  else if c = 62 then str "&gt;"
  else if c = 34 then str "&quot;"
  else if c = 39 then str "&#39;"
  else [c]

/-- The specification's escaping: every character replaced independently. -/
def escapeSpec (s : GoString) : GoString := s.flatMap escapeByte

/-- The byte is one of the five characters `& < > " '`. -/
def isSpecial (c : UInt8) : Bool :=
  c == 38 || c == 60 || c == 62 || c == 34 || c == 39

/-! ## `buildEmailBody` (email.go, lines 241-310)

`fmt.Sprintf` with `%s` verbs writes its string arguments byte for byte, so each
`Sprintf` is the concatenation of the pieces of its format string with the
arguments. -/

/-- The submission handed to the mailer (`ContactEmail`, lines 11-17). -/
structure ContactEmail where
  Name : GoString
  Phone : GoString
  Email : GoString
  Location : GoString
  Message : GoString
  deriving DecidableEq

/-- The first `WriteString` (lines 244-265): document head and style sheet. -/
def bodyHead : GoString := str (
  "<!DOCTYPE html>\n" ++
  "<html>\n" ++
  "<head>\n" ++
  "    <meta charset=\"UTF-8\">\n" ++
  "    <style>\n" ++
  "        body \x7b font-family: Arial, sans-serif; line-height: 1.6; color: #333; \x7d\n" ++
  "        .container \x7b max-width: 600px; margin: 0 auto; padding: 20px; \x7d\n" ++
  "        .header \x7b background: #000; color: #fff; padding: 20px; text-align: center; \x7d\n" ++
  "        .content \x7b padding: 20px; background: #f9f9f9; \x7d\n" ++
  "        .field \x7b margin-bottom: 15px; \x7d\n" ++
  "        .label \x7b font-weight: bold; color: #3FAD4D; \x7d\n" ++
  "        .value \x7b margin-top: 5px; \x7d\n" ++
  "        .footer \x7b text-align: center; padding: 20px; font-size: 12px; color: #666; \x7d\n" ++
  "    </style>\n" ++
  "</head>\n" ++
  "<body>\n" ++
  "    <div class=\"container\">\n" ++
  "        <div class=\"header\">\n" ++
  "            <h1>Nuevo Contacto</h1>\n" ++
  "        </div>\n" ++
  "        <div class=\"content\">\n")

/-- Format string of the name row, up to its `%s` (lines 267-269). -/
def nameRowOpen : GoString := str (
  "            <div class=\"field\">\n" ++
  "                <div class=\"label\">Nombre:</div>\n" ++
  "                <div class=\"value\">")

/-- Format string of the phone row, up to its `%s` (lines 274-276). -/
def phoneRowOpen : GoString := str (
  "            <div class=\"field\">\n" ++
  "                <div class=\"label\">Teléfono:</div>\n" ++
  "                <div class=\"value\">")

/-- Format string of the email row, up to its first `%s` (lines 281-283). -/
def emailRowOpen : GoString := str (
  "            <div class=\"field\">\n" ++
  "                <div class=\"label\">Email:</div>\n" ++
  "                <div class=\"value\"><a href=\"mailto:")

/-- Between the two `%s` of the email row (line 283). -/
def emailRowMid : GoString := str "\">"

/-- After the second `%s` of the email row (lines 283-285). -/
def emailRowClose : GoString := str (
  "</a></div>\n" ++
  "            </div>\n")

/-- Format string of the location row, up to its `%s` (lines 288-290). -/
def locationRowOpen : GoString := str (
  "            <div class=\"field\">\n" ++
  "                <div class=\"label\">Ubicación:</div>\n" ++
  "                <div class=\"value\">")

/-- Format string of the message row, up to its `%s` (lines 295-297). -/
def messageRowOpen : GoString := str (
  "            <div class=\"field\">\n" ++
  "                <div class=\"label\">Mensaje:</div>\n" ++
  "                <div class=\"value\">")

/-- What follows the `%s` in the name, phone, location and message rows. -/
def rowClose : GoString := str (
  "</div>\n" ++
  "            </div>\n")

/-- The last `WriteString` (lines 301-307). -/
def bodyTail : GoString := str (
  "        </div>\n" ++
  "        <div class=\"footer\">\n" ++
  "            Este mensaje fue enviado desde el formulario de contacto de la web.\n" ++
  "        </div>\n" ++
  "    </div>\n" ++
  "</body>\n" ++
  "</html>")

/-- The HTML body of the mail; `sb` is the `strings.Builder`. -/
def buildEmailBody (data : ContactEmail) : GoString :=
  let sb : GoString := []
  let sb := sb ++ bodyHead
  let sb := sb ++ (nameRowOpen ++ escapeHTML data.Name ++ rowClose)
  let sb := if data.Phone ≠ [] then
      sb ++ (phoneRowOpen ++ escapeHTML data.Phone ++ rowClose)
    else sb
  let sb := sb ++ (emailRowOpen ++ escapeHTML data.Email ++ emailRowMid ++
      escapeHTML data.Email ++ emailRowClose)
  let sb := if data.Location ≠ [] then
      sb ++ (locationRowOpen ++ escapeHTML data.Location ++ rowClose)
    else sb
  let sb := sb ++ (messageRowOpen ++ escapeHTML data.Message ++ rowClose)
  let sb := sb ++ bodyTail
  sb

/-- The label markup of the phone row. -/
def phoneLabel : GoString := str "<div class=\"label\">Teléfono:</div>"

/-- The label markup of the location row. -/
def locationLabel : GoString := str "<div class=\"label\">Ubicación:</div>"

/-- The two strings differ at an index that both of them have. -/
def clash : GoString → GoString → Bool
  | a :: as, b :: bs => a != b || clash as bs
  | _, _ => false

/-- Every non-empty suffix of the text clashes with the pattern `p`: wherever an
occurrence of `p` is tried inside the text, it fails inside the text. -/
def clashAll (p : GoString) : GoString → Bool
  | [] => true
  | c :: cs => clash p (c :: cs) && clashAll p cs

/-! ## The LOGIN mechanism (email.go, lines 28-53) -/

/-- A Go `error`, as the text that `Error()` gives. -/
abbrev Error := GoString

/-- The credentials held by the LOGIN mechanism. -/
structure loginAuth where
  username : GoString
  password : GoString
  deriving DecidableEq

/-- The constructor `LoginAuth`. -/
def LoginAuth (username password : GoString) : loginAuth := ⟨username, password⟩

/-- The method `Start`: mechanism name, an empty initial response, no error. -/
def loginAuth.Start (_a : loginAuth) : GoString × Option GoString × Option Error :=
  (str "LOGIN", some [], none)

/-- The method `Next`. The two components are Go's `([]byte, error)`: `none` is
`nil`. A `%s` verb writes the bytes of `fromServer` as they are. -/
def loginAuth.Next (a : loginAuth) (fromServer : GoString) (more : Bool) :
    Option GoString × Option Error :=
  if more then
    if fromServer = str "Username:" then (some a.username, none)
    else if fromServer = str "Password:" then (some a.password, none)
    else (none, some (str "unknown LOGIN challenge: " ++ fromServer))
  else (none, none)

/-! ## The SMTP session (email.go, lines 55-239)

The relay and the Go standard library (`crypto/tls`, `net/smtp`) are the
environment. Every call into them is an `Op`; a `Net` says for each call whether
it succeeds (`none`) or fails with an error. A connection or client is named by
a number: 0 for the first one a function opens, 1 for the one it opens on
retry (the client made by `smtp.NewClient` on connection `k` is client `k`).
A run is the error returned together with the calls made, in order. Each call
is made at most once in a run, so a `Net` that looks at the call alone describes
every relay behaviour. Writes to the process log are not modelled. -/

/-- The SMTP settings (`SMTPConfig`, lines 19-26). -/
structure SMTPConfig where
  Host : GoString
  Port : GoString
  User : GoString
  Password : GoString
  From : GoString
  FromName : GoString
  deriving DecidableEq

/-- Calls into the network and the SMTP library. -/
inductive Op where
  | tlsDial (conn : Nat) (addr serverName : GoString)
  | smtpDial (client : Nat) (addr : GoString)
  | newClient (conn : Nat) (host : GoString)
  | startTLS (client : Nat) (serverName : GoString)
  | authPlain (client : Nat) (identity username password host : GoString)
  | authLogin (client : Nat) (a : loginAuth)
  | mail (client : Nat) (sender : GoString)
  | rcpt (client : Nat) (recipient : GoString)
  | data (client : Nat)
  | write (client : Nat) (msg : GoString)
  | closeWriter (client : Nat)
  | quit (client : Nat)
  | clientClose (client : Nat)
  | connClose (conn : Nat)
  deriving DecidableEq

/-- The environment's answer to each call: `none` for success, or the error. -/
abbrev Net := Op → Option Error

/-- A run: the returned error (`none` is `nil`) and the calls made, in order. -/
abbrev Run := Option Error × List Op

/-- Make the call `op`; if it fails the run goes on as `onErr err`, otherwise as
`next` (Go's `if err != nil \x7b ... return \x7d` followed by the rest). -/
def attempt (net : Net) (op : Op) (onErr : Error → Run) (next : Run) : Run :=
  match net op with
  | some err => ((onErr err).1, op :: (onErr err).2)
  | none => (next.1, op :: next.2)

/-- Return `err` after making the calls `cleanup` (whose results are dropped). -/
def failWith (err : Error) (cleanup : List Op) : Run := (some err, cleanup)

/-- Make the calls `ops`, dropping their results, and go on as `next`. -/
def thenRun (ops : List Op) (next : Run) : Run := (next.1, ops ++ next.2)

/-- Calls registered with `defer` run when the function returns, on every path. -/
def deferred (cleanup : List Op) (r : Run) : Run := (r.1, r.2 ++ cleanup)

/-- The envelope and data steps, the same text in both transports (lines
163-186 and 215-238): MAIL FROM, RCPT TO, DATA, write, close, QUIT. -/
def sendEnvelope (net : Net) (client : Nat) (config : SMTPConfig) (recipient msg : GoString) : Run :=
  attempt net (.mail client config.From)
    (fun err => failWith (str "MAIL FROM failed: " ++ err) []) <|
  attempt net (.rcpt client recipient)
    (fun err => failWith (str "RCPT TO failed: " ++ err) []) <|
  attempt net (.data client)
    (fun err => failWith (str "DATA failed: " ++ err) []) <|
  attempt net (.write client msg)
    (fun err => failWith (str "write message failed: " ++ err) []) <|
  attempt net (.closeWriter client)
    (fun err => failWith (str "close writer failed: " ++ err) []) <|
  (net (.quit client), [.quit client])

/-- The function `sendWithTLS` (lines 113-187). -/
def sendWithTLS (net : Net) (config : SMTPConfig) (recipient msg addr : GoString) : Run :=
  let tlsConfig := config.Host
  attempt net (.tlsDial 0 addr tlsConfig)
    (fun err => failWith (str "TLS dial failed: " ++ err) []) <|
  attempt net (.newClient 0 config.Host)
    (fun err => failWith (str "SMTP client creation failed: " ++ err) [.connClose 0]) <|
  attempt net (.authPlain 0 [] config.User config.Password config.Host)
    (fun authErr =>
      thenRun [.clientClose 0, .connClose 0] <|
      attempt net (.tlsDial 1 addr tlsConfig)
        (fun err => failWith (str "TLS dial failed on retry: " ++ err) []) <|
      attempt net (.newClient 1 config.Host)
        (fun err =>
          failWith (str "SMTP client creation failed on retry: " ++ err) [.connClose 1]) <|
      attempt net (.authLogin 1 (LoginAuth config.User config.Password))
        (fun err =>
          failWith (str "SMTP auth failed (tried PLAIN: " ++ authErr ++ str ", LOGIN: " ++
            err ++ str ")") [.clientClose 1, .connClose 1]) <|
      deferred [.connClose 1, .clientClose 1] <|
      sendEnvelope net 1 config recipient msg) <|
  deferred [.connClose 0, .clientClose 0] <|
  sendEnvelope net 0 config recipient msg

/-- The function `sendWithSTARTTLS` (lines 189-239). -/
def sendWithSTARTTLS (net : Net) (config : SMTPConfig) (recipient msg addr : GoString) : Run :=
  attempt net (.smtpDial 0 addr)
    (fun err => failWith (str "SMTP dial failed: " ++ err) []) <|
  deferred [.clientClose 0] <|
  let tlsConfig := config.Host
  attempt net (.startTLS 0 tlsConfig)
    (fun err => failWith (str "STARTTLS failed: " ++ err) []) <|
  attempt net (.authPlain 0 [] config.User config.Password config.Host)
    (fun _ =>
      attempt net (.authLogin 0 (LoginAuth config.User config.Password))
        (fun err => failWith (str "SMTP auth failed: " ++ err) []) <|
      sendEnvelope net 0 config recipient msg) <|
  sendEnvelope net 0 config recipient msg

/-- The process environment, read with `os.Getenv` (unset variables are empty). -/
abbrev Env := GoString → GoString

/-- The function `getConfig` (lines 55-64). -/
def getConfig (env : Env) : SMTPConfig :=
  { Host := env (str "SMTP_HOST")
    Port := env (str "SMTP_PORT")
    User := env (str "SMTP_USER")
    Password := env (str "SMTP_PASSWORD")
    From := env (str "SMTP_FROM")
    FromName := env (str "SMTP_FROM_NAME") }

/-- The message that `SendContactEmail` composes (lines 78-99): subject, body,
From header and the `Sprintf` of headers, blank line and body. -/
def composeMessage (config : SMTPConfig) (recipient : GoString) (data : ContactEmail) :
    GoString :=
  let subject := str "Nuevo contacto desde web: " ++ data.Name
  let body := buildEmailBody data
  let fromHeader :=
    if config.FromName ≠ [] then config.FromName ++ str " <" ++ config.From ++ str ">"
    else config.From
  str "From: " ++ fromHeader ++ str "\r\n" ++
    str "To: " ++ recipient ++ str "\r\n" ++
    str "Reply-To: " ++ data.Email ++ str "\r\n" ++
    str "Subject: " ++ subject ++ str "\r\n" ++
    str "MIME-Version: 1.0\r\n" ++
    str "Content-Type: text/html; charset=\"UTF-8\"\r\n" ++
    str "\r\n" ++
    body

/-- The function `SendContactEmail` (lines 66-111). -/
def SendContactEmail (env : Env) (net : Net) (data : ContactEmail) : Run :=
  let config := getConfig env
  let recipient := env (str "CONTACT_EMAIL")
  if recipient = [] then
    (some (str "CONTACT_EMAIL not configured"), [])
  else
    let msg := composeMessage config recipient data
    let addr := config.Host ++ str ":" ++ config.Port
    if config.Port = str "465" then
      sendWithTLS net config recipient msg addr
    else
      sendWithSTARTTLS net config recipient msg addr

/-! ## Reading a composed message

The claims on the message speak of the text before and after the first blank
line and of CRLF-separated lines; these are Go's `strings.Cut` and
`strings.Split`. -/

/-- Go `strings.Cut(s, sep)`: the text before and after the first occurrence of
`sep`, or `none` when `sep` does not occur. -/
def Cut : GoString → GoString → Option (GoString × GoString)
  | [], sep => if sep.isEmpty then some ([], []) else none
  | c :: cs, sep =>
    if sep.isPrefixOf (c :: cs) then some ([], (c :: cs).drop sep.length)
    else (Cut cs sep).map (fun p => (c :: p.1, p.2))

/-- Put `c` in front of the first piece. -/
def consFirst (c : UInt8) : List GoString → List GoString
  | [] => [[c]]
  | l :: ls => (c :: l) :: ls

/-- The scanning loop of `strings.Split` for a non-empty `sep`; the counter is
the number of bytes of an occurrence of `sep` still to be skipped. -/
def splitFrom (sep : GoString) : Nat → GoString → List GoString
  | _, [] => [[]]
  | k + 1, _ :: cs => splitFrom sep k cs
  | 0, c :: cs =>
    if sep.isPrefixOf (c :: cs) then [] :: splitFrom sep (sep.length - 1) cs
    else consFirst c (splitFrom sep 0 cs)

/-- Go `strings.Split(s, sep)` for a non-empty `sep`: the pieces between the
non-overlapping occurrences of `sep`, found left to right. (An empty `sep`
splits after every rune in Go; that case is not modelled.) -/
def Split (s sep : GoString) : List GoString :=
  match sep with
  | [] => [s]
  | _ :: _ => splitFrom sep 0 s

/-- The six header lines that the specification lists, in its order. -/
def headerLines (config : SMTPConfig) (recipient : GoString) (data : ContactEmail) :
    List GoString :=
  [ str "From: " ++
      (if config.FromName ≠ [] then config.FromName ++ str " <" ++ config.From ++ str ">"
       else config.From),
    str "To: " ++ recipient,
    str "Reply-To: " ++ data.Email,
    str "Subject: " ++ (str "Nuevo contacto desde web: " ++ data.Name),
    str "MIME-Version: 1.0",
    str "Content-Type: text/html; charset=\"UTF-8\"" ]

/-- The header lines joined with CRLF: the header block of a message. -/
def headerBlock (config : SMTPConfig) (recipient : GoString) (data : ContactEmail) :
    GoString :=
  (str "\r\n").intercalate (headerLines config recipient data)

/-! ## `ContactHandler` (contact.go, lines 13-121)

The decoding of the request body (JSON, multipart or URL-encoded form) is done
by the standard library; `decoded` is its result for the decoder that the
content type selects, `none` when it fails. Turnstile verification and mail
sending are the two collaborators of the handler: they are parameters, and the
response records the calls made to them. -/

/-- The decoded request (`ContactRequest`, lines 13-20). -/
structure ContactRequest where
  Name : GoString
  Phone : GoString
  Email : GoString
  Location : GoString
  Message : GoString
  Turnstile : GoString
  deriving DecidableEq

/-- The JSON answer (`ContactResponse`, lines 22-25). -/
structure ContactResponse where
  Success : Bool
  Message : GoString
  deriving DecidableEq

/-- A call to a collaborator of the handler. -/
inductive Call where
  | verify (token remoteAddr : GoString)
  | send (data : ContactEmail)
  deriving DecidableEq

/-- What the handler did: status code, encoded answer, collaborator calls. -/
structure Response where
  status : Nat
  body : ContactResponse
  calls : List Call
  deriving DecidableEq

/-- The function `sendError` (lines 113-121), after the calls made so far. -/
def sendError (message : GoString) (status : Nat) (calls : List Call) : Response :=
  { status := status, body := { Success := false, Message := message }, calls := calls }

/-- The function `ContactHandler` (lines 27-111). A handler that never calls
`WriteHeader` answers with status 200. -/
def ContactHandler (verify : GoString → GoString → Option Error)
    (send : ContactEmail → Option Error)
    (contentType : GoString) (decoded : Option ContactRequest) (remoteAddr : GoString) :
    Response :=
  let parsed : Except Response ContactRequest :=
    if Contains contentType (str "application/json") then
      match decoded with
      | none => .error (sendError (str "Error parsing request") 400 [])
      | some req => .ok req
    else if Contains contentType (str "multipart/form-data") then
      match decoded with
      | none => .error (sendError (str "Error parsing multipart form") 400 [])
      | some req => .ok req
    else
      match decoded with
      | none => .error (sendError (str "Error parsing form") 400 [])
      | some req => .ok req
  match parsed with
  | .error resp => resp
  | .ok req =>
    if req.Name = [] ∨ req.Email = [] ∨ req.Message = [] then
      sendError (str "Nombre, email y mensaje son obligatorios") 400 []
    else if ¬ Contains req.Email (str "@") then
      sendError (str "Email inválido") 400 []
    else
      match verify req.Turnstile remoteAddr with
      | some _ =>
        sendError (str "Verificación de seguridad fallida") 403
          [.verify req.Turnstile remoteAddr]
      | none =>
        let emailData : ContactEmail :=
          { Name := req.Name, Phone := req.Phone, Email := req.Email,
            Location := req.Location, Message := req.Message }
        match send emailData with
        | some _ =>
          sendError (str "Error al enviar el mensaje") 500
            [.verify req.Turnstile remoteAddr, .send emailData]
        | none =>
          { status := 200
            body :=
              { Success := true
                Message := str ("Mensaje enviado correctamente. " ++
                  "Nos pondremos en contacto contigo pronto.") }
            calls := [.verify req.Turnstile remoteAddr, .send emailData] }

/-! ## Proof devices and sample inputs -/

/-- No occurrence of `sep` starts inside `a` when `a` is followed by `r`. -/
def noStart (sep : GoString) : GoString → GoString → Prop
  | [], _ => True
  | c :: cs, r => ¬ sep <+: (c :: cs) ++ r ∧ noStart sep cs r

/-- A text inside which no separator that starts with CRLF can start, whatever
follows it, as long as what follows does not start with LF. -/
def Clean (l : GoString) : Prop :=
  ∀ sep r : GoString, r.head? ≠ some 10 → noStart (13 :: 10 :: sep) l r

/-- The configuration of `TestGetConfig`. -/
def sampleConfig : SMTPConfig :=
  { Host := str "smtp.test.com"
    Port := str "465"
    User := str "user@test.com"
    Password := str "password123"
    From := str "noreply@test.com"
    FromName := str "Test App" }

/-- The submission of `TestBuildEmailBody_OptionalFields`: no phone, no location. -/
def sampleSubmission : ContactEmail :=
  { Name := str "Test User"
    Phone := []
    Email := str "test@example.com"
    Location := []
    Message := str "This is a test message" }

/-- The submission of `TestBuildEmailBody`: every field is given. -/
def fullSubmission : ContactEmail :=
  { Name := str "Test User"
    Phone := str "+34 666 777 888"
    Email := str "test@example.com"
    Location := str "Madrid"
    Message := str "This is a test message" }

/-- A submission whose name carries a blank line and further text. -/
def injectedSubmission : ContactEmail :=
  { Name := str "Eve\r\n\r\n<b>forged</b>"
    Phone := []
    Email := str "eve@example.com"
    Location := []
    Message := str "hi" }

/-- A relay that refuses PLAIN and accepts everything else. -/
def plainRejectingNet : Net
  | .authPlain _ _ _ _ _ => some (str "535 PLAIN rejected")
  | _ => none

/-- A relay that refuses PLAIN and LOGIN, each with its own error. -/
def authRejectingNet : Net
  | .authPlain _ _ _ _ _ => some (str "535 PLAIN rejected")
  | .authLogin _ _ => some (str "504 LOGIN unsupported")
  | _ => none

/-- A relay that accepts everything. -/
def acceptingNet : Net := fun _ => none

/-- An environment in which nothing is set. -/
def emptyEnv : Env := fun _ => []

/-- An environment with a recipient and a relay on the submission port 587. -/
def sampleEnv : Env := fun key =>
  if key = str "CONTACT_EMAIL" then str "info@example.com"
  else if key = str "SMTP_HOST" then str "smtp.test.com"
  else if key = str "SMTP_PORT" then str "587"
  else if key = str "SMTP_FROM" then str "noreply@test.com"
  else []

/-- The requests of `TestContactHandler_MissingFields` set a name, an email and
a message or leave them out; this one has the invalid email of its last case. -/
def invalidEmailRequest : ContactRequest :=
  { Name := str "Test", Phone := [], Email := str "invalid", Location := [],
    Message := str "Hello", Turnstile := [] }

/-- The request of `TestContactHandler_FormData`. -/
def validRequest : ContactRequest :=
  { Name := str "Test User", Phone := [], Email := str "test@test.com", Location := [],
    Message := str "Hello World", Turnstile := [] }

/-! ## Connections of a run

The TLS connections that are open after a sequence of calls. A dial that
succeeds opens the connection it names and `conn.Close()` closes it. In
`net/smtp` closing a client closes its connection too; `viaClient` says whether
this is counted, and the claims on connections are proved for both readings. -/

/-- The open connections after one more call. -/
def connStep (net : Net) (viaClient : Bool) (conns : List Nat) (op : Op) : List Nat :=
  match op with
  | .tlsDial k addr serverName =>
    if net (.tlsDial k addr serverName) = none then conns ++ [k] else conns
  | .connClose k => conns.filter (fun c => c ≠ k)
  | .clientClose k => if viaClient then conns.filter (fun c => c ≠ k) else conns
  | _ => conns

/-- The open connections after the calls `ops`, none being open at the start. -/
def tlsOpen (net : Net) (viaClient : Bool) (ops : List Op) : List Nat :=
  ops.foldl (connStep net viaClient) []

/-- The call is the dial of the second connection (the reconnect). -/
def isReconnect : Op → Bool
  | .tlsDial k _ _ => k == 1
  | _ => false

/-- The call neither opens nor closes a connection. -/
def isNeutral : Op → Bool
  | .tlsDial _ _ _ => false
  | .connClose _ => false
  | .clientClose _ => false
  | _ => true

/-- Starting with the connections `conns` open, the calls keep at most one
connection open after each step, reconnect only when none is open, and leave
none open at the end. -/
def scopedFrom (net : Net) (viaClient : Bool) : List Nat → List Op → Prop
  | conns, [] => conns = []
  | conns, op :: ops =>
    (isReconnect op = true → conns = []) ∧
    (connStep net viaClient conns op).length ≤ 1 ∧
    scopedFrom net viaClient (connStep net viaClient conns op) ops

/-! ## Lemmas on strings -/

theorem contains_iff (s substr : GoString) : Contains s substr = true ↔ substr <:+: s := by
  induction s with
  | nil => cases substr <;> simp [Contains]
  | cons c cs ih =>
    rw [Contains, Bool.or_eq_true, ih, List.infix_cons_iff, List.isPrefixOf_iff_prefix]

theorem replaceFrom_single (o : UInt8) (new s : GoString) :
    replaceFrom [o] new 0 s = s.flatMap (fun c => if c = o then new else [c]) := by
  induction s with
  | nil => rfl
  | cons c cs ih =>
    by_cases h : c = o
    · subst h
      simp [replaceFrom, List.isPrefixOf, ih]
    · have h' : ¬ o = c := fun e => h e.symm
      simp [replaceFrom, List.isPrefixOf, ih, h, h']

theorem replaceAll_single (o : UInt8) (new s : GoString) :
    ReplaceAll s [o] new = s.flatMap (fun c => if c = o then new else [c]) := by
  unfold ReplaceAll
  by_cases h : [o] = new
  · subst h
    simp only [if_true]
    have : (fun c : UInt8 => if c = o then [o] else [c]) = fun c => [c] := by
      funext c
      by_cases hc : c = o <;> simp [hc]
    rw [this, List.flatMap_singleton']
  · simp only [h, if_false]
    exact replaceFrom_single o new s

theorem escapeHTML_eq_escapeSpec (s : GoString) : escapeHTML s = escapeSpec s := by
  have e1 : str "&" = [38] := by decide
  have e2 : str "<" = [60] := by decide
  have e3 : str ">" = [62] := by decide
  have e4 : str "\"" = [34] := by decide
  have e5 : str "'" = [39] := by decide
  unfold escapeHTML escapeSpec
  simp only [e1, e2, e3, e4, e5, replaceAll_single, List.flatMap_assoc]
  congr 1
  funext c
  unfold escapeByte
  by_cases h1 : c = 38
  · subst h1; decide
  by_cases h2 : c = 60
  · subst h2; decide
  by_cases h3 : c = 62
  · subst h3; decide
  by_cases h4 : c = 34
  · subst h4; decide
  by_cases h5 : c = 39
  · subst h5; decide
  simp [h1, h2, h3, h4, h5]


/-! ## Escaping: lengths and safe text -/

theorem escapeByte_of_not_special (c : UInt8) (h : isSpecial c = false) :
    escapeByte c = [c] := by
  simp only [isSpecial, Bool.or_eq_false_iff, beq_eq_false_iff_ne, ne_eq] at h
  obtain ⟨⟨⟨⟨h1, h2⟩, h3⟩, h4⟩, h5⟩ := h
  simp [escapeByte, h1, h2, h3, h4, h5]

theorem escapeSpec_of_safe (s : GoString) (h : ∀ c ∈ s, isSpecial c = false) :
    escapeSpec s = s := by
  induction s with
  | nil => rfl
  | cons c cs ih =>
    have hc := escapeByte_of_not_special c (h c (List.mem_cons_self c cs))
    have hcs := ih (fun d hd => h d (List.mem_cons_of_mem c hd))
    unfold escapeSpec at hcs ⊢
    rw [List.flatMap_cons, hc, hcs]
    rfl

theorem one_le_length_escapeByte (c : UInt8) : 1 ≤ (escapeByte c).length := by
  unfold escapeByte
  split_ifs <;> first | decide | simp

theorem amp_mem_escapeByte (c : UInt8) (h : isSpecial c = true) : (38 : UInt8) ∈ escapeByte c := by
  simp only [isSpecial, Bool.or_eq_true, beq_iff_eq] at h
  rcases h with (((h | h) | h) | h) | h <;> subst h <;> decide

theorem length_le_escapeSpec (s : GoString) : s.length ≤ (escapeSpec s).length := by
  induction s with
  | nil => simp [escapeSpec]
  | cons c cs ih =>
    have h1 := one_le_length_escapeByte c
    unfold escapeSpec at ih ⊢
    rw [List.flatMap_cons, List.length_append, List.length_cons]
    omega

theorem length_lt_escapeSpec (s : GoString) (h : (38 : UInt8) ∈ s) :
    s.length < (escapeSpec s).length := by
  induction s with
  | nil => cases h
  | cons c cs ih =>
    have hle := length_le_escapeSpec cs
    unfold escapeSpec at ih hle ⊢
    rw [List.flatMap_cons, List.length_append, List.length_cons]
    by_cases hc : c = 38
    · subst hc
      have : (escapeByte 38).length = 5 := by decide
      omega
    · have hmem : (38 : UInt8) ∈ cs := by
        rcases List.mem_cons.mp h with h' | h'
        · exact absurd h'.symm hc
        · exact h'
      have := ih hmem
      have := one_le_length_escapeByte c
      omega

theorem amp_mem_escapeSpec (s : GoString) (c : UInt8) (hc : c ∈ s) (h : isSpecial c = true) :
    (38 : UInt8) ∈ escapeSpec s :=
  List.mem_flatMap.mpr ⟨c, hc, amp_mem_escapeByte c h⟩

/-! ## Occurrences of a pattern in a concatenation -/

theorem clash_excludes_start (p u r : GoString) (h : clash p u = true) : ¬ p <+: u ++ r := by
  induction p generalizing u with
  | nil => simp [clash] at h
  | cons a as ih =>
    cases u with
    | nil => simp [clash] at h
    | cons b bs =>
      intro hpre
      rw [List.cons_append, List.cons_prefix_cons] at hpre
      simp only [clash, Bool.or_eq_true, bne_iff_ne, ne_eq] at h
      rcases h with h | h
      · exact h hpre.1
      · exact ih bs h hpre.2

/-- No occurrence of `p` starts inside a text all of whose suffixes clash with `p`. -/
theorem not_infix_append_of_clashAll (p a r : GoString) (h : clashAll p a = true)
    (hr : ¬ p <:+: r) : ¬ p <:+: a ++ r := by
  induction a with
  | nil => simpa using hr
  | cons c cs ih =>
    simp only [clashAll, Bool.and_eq_true] at h
    rw [List.cons_append, List.infix_cons_iff]
    rintro (hpre | hin)
    · exact clash_excludes_start p (c :: cs) r h.1 (by simpa using hpre)
    · exact ih h.2 hin

/-- No occurrence of `p` starts inside a text that lacks the first byte of `p`. -/
theorem not_infix_append_of_not_mem (x : UInt8) (p e r : GoString) (h : ∀ c ∈ e, c ≠ x)
    (hr : ¬ (x :: p) <:+: r) : ¬ (x :: p) <:+: e ++ r := by
  induction e with
  | nil => simpa using hr
  | cons c cs ih =>
    rw [List.cons_append, List.infix_cons_iff]
    rintro (hpre | hin)
    · rw [List.cons_prefix_cons] at hpre
      exact h c (List.mem_cons_self c cs) hpre.1.symm
    · exact ih (fun d hd => h d (List.mem_cons_of_mem c hd)) hin

theorem lt_not_mem_escapeHTML (s : GoString) : ∀ c ∈ escapeHTML s, c ≠ 60 := by
  intro c hc
  rw [escapeHTML_eq_escapeSpec] at hc
  obtain ⟨a, -, hca⟩ := List.mem_flatMap.mp hc
  rintro rfl
  unfold escapeByte at hca
  split_ifs at hca with h1 h2 h3 h4 h5
  · revert hca; decide
  · revert hca; decide
  · revert hca; decide
  · revert hca; decide
  · revert hca; decide
  · exact h2 (List.mem_singleton.mp hca).symm

/-- A template row `open ++ escapeHTML v ++ close` holds no occurrence of a
pattern that starts with `<` and clashes with the literal parts. -/
theorem row_avoids (p lit1 lit2 v r : GoString) (x : GoString) (hp : p = 60 :: x)
    (h1 : clashAll p lit1 = true) (h2 : clashAll p lit2 = true) (hr : ¬ p <:+: r) :
    ¬ p <:+: lit1 ++ (escapeHTML v ++ (lit2 ++ r)) := by
  apply not_infix_append_of_clashAll p lit1 _ h1
  subst hp
  apply not_infix_append_of_not_mem 60 x _ _ (lt_not_mem_escapeHTML v)
  exact not_infix_append_of_clashAll _ lit2 _ h2 hr

/-- The body with its rows spelled out; the optional rows are `[]` when absent. -/
theorem buildEmailBody_eq (d : ContactEmail) :
    buildEmailBody d =
      bodyHead ++ (nameRowOpen ++ (escapeHTML d.Name ++ (rowClose ++
      ((if d.Phone ≠ [] then phoneRowOpen ++ (escapeHTML d.Phone ++ rowClose) else []) ++
      (emailRowOpen ++ (escapeHTML d.Email ++ (emailRowMid ++ (escapeHTML d.Email ++
      (emailRowClose ++
      ((if d.Location ≠ [] then locationRowOpen ++ (escapeHTML d.Location ++ rowClose)
        else []) ++
      (messageRowOpen ++ (escapeHTML d.Message ++ (rowClose ++ bodyTail))))))))))))) := by
  unfold buildEmailBody
  by_cases h1 : d.Phone = [] <;> by_cases h2 : d.Location = [] <;>
    simp [h1, h2, List.append_assoc]

/-- The body holds no occurrence of a pattern that starts with `<` and clashes
with every literal part of the template, the optional rows being `o1` and `o2`
(each one a row of the template or empty). -/
theorem body_avoids (p x : GoString) (hp : p = 60 :: x) (d : ContactEmail)
    (o1 o2 : GoString)
    (ho1 : ∀ r, ¬ p <:+: r → ¬ p <:+: o1 ++ r) (ho2 : ∀ r, ¬ p <:+: r → ¬ p <:+: o2 ++ r)
    (c1 : clashAll p bodyHead = true) (c2 : clashAll p nameRowOpen = true)
    (c3 : clashAll p rowClose = true) (c4 : clashAll p emailRowOpen = true)
    (c5 : clashAll p emailRowMid = true) (c6 : clashAll p emailRowClose = true)
    (c7 : clashAll p messageRowOpen = true) (c8 : clashAll p bodyTail = true) :
    ¬ p <:+: bodyHead ++ (nameRowOpen ++ (escapeHTML d.Name ++ (rowClose ++ (o1 ++
      (emailRowOpen ++ (escapeHTML d.Email ++ (emailRowMid ++ (escapeHTML d.Email ++
      (emailRowClose ++ (o2 ++
      (messageRowOpen ++ (escapeHTML d.Message ++ (rowClose ++ bodyTail))))))))))))) := by
  have hnil : ¬ p <:+: [] := by subst hp; simp
  have htail : ¬ p <:+: bodyTail := by
    have := not_infix_append_of_clashAll p bodyTail [] c8 hnil
    simpa using this
  apply not_infix_append_of_clashAll p bodyHead _ c1
  apply row_avoids p nameRowOpen rowClose d.Name _ x hp c2 c3
  apply ho1
  apply row_avoids p emailRowOpen emailRowMid d.Email _ x hp c4 c5
  have hliteral : ∀ r, ¬ p <:+: r → ¬ p <:+: escapeHTML d.Email ++ (emailRowClose ++ r) := by
    intro r hr
    subst hp
    apply not_infix_append_of_not_mem 60 x _ _ (lt_not_mem_escapeHTML d.Email)
    exact not_infix_append_of_clashAll _ emailRowClose _ c6 hr
  apply hliteral
  apply ho2
  exact row_avoids p messageRowOpen rowClose d.Message _ x hp c7 c3 htail

theorem infix_skip (x a r : GoString) (h : x <:+: r) : x <:+: a ++ r := by
  obtain ⟨u, v, huv⟩ := h
  exact ⟨a ++ u, v, by rw [← huv]; simp only [List.append_assoc]⟩

theorem infix_here (x r : GoString) : x <:+: x ++ r := ⟨[], r, rfl⟩

/-! ## First occurrence of a separator: `Cut` and `Split` -/

theorem noStart_append (sep a b r : GoString) (ha : noStart sep a (b ++ r))
    (hb : noStart sep b r) : noStart sep (a ++ b) r := by
  induction a with
  | nil => simpa using hb
  | cons c cs ih =>
    obtain ⟨h1, h2⟩ := ha
    refine ⟨?_, ih h2⟩
    simpa [List.append_assoc] using h1

theorem noStart_of_clashAll (sep a r : GoString) (h : clashAll sep a = true) :
    noStart sep a r := by
  induction a with
  | nil => trivial
  | cons c cs ih =>
    simp only [clashAll, Bool.and_eq_true] at h
    exact ⟨clash_excludes_start sep (c :: cs) r h.1, ih h.2⟩

/-- A value without CRLF inside, followed by text that does not start with LF,
has no occurrence of a separator that starts with CRLF. -/
theorem noStart_value (sep v r : GoString) (hv : ¬ [13, 10] <:+: v)
    (hr : r.head? ≠ some 10) : noStart (13 :: 10 :: sep) v r := by
  induction v with
  | nil => trivial
  | cons x v ih =>
    refine ⟨?_, ih (fun h => hv (List.infix_cons h))⟩
    intro hpre
    rw [List.cons_append, List.cons_prefix_cons] at hpre
    obtain ⟨hx, hrest⟩ := hpre
    cases v with
    | nil =>
      obtain ⟨t, ht⟩ := hrest
      apply hr
      rw [List.nil_append] at ht
      rw [← ht]
      rfl
    | cons y v =>
      rw [List.cons_append, List.cons_prefix_cons] at hrest
      apply hv
      rw [← hx, hrest.1]
      exact ⟨[], v, rfl⟩

theorem head?_append_of (lit t : GoString) (x : UInt8) (h : lit.head? = some x) :
    (lit ++ t).head? = some x := by
  cases lit with
  | nil => cases h
  | cons a as => simpa using h

theorem cut_append (sep a r : GoString) (h : noStart sep a r) :
    Cut (a ++ r) sep = (Cut r sep).map (fun p => (a ++ p.1, p.2)) := by
  induction a with
  | nil =>
    rw [List.nil_append]
    cases Cut r sep <;> simp
  | cons c cs ih =>
    obtain ⟨h1, h2⟩ := h
    have hpre : sep.isPrefixOf (c :: (cs ++ r)) = false := by
      rw [Bool.eq_false_iff, ne_eq, List.isPrefixOf_iff_prefix]
      simpa using h1
    rw [List.cons_append, Cut, hpre, ih h2]
    cases Cut r sep <;> simp

theorem cut_here (x : UInt8) (xs r : GoString) :
    Cut ((x :: xs) ++ r) (x :: xs) = some ([], r) := by
  have hpre : (x :: xs).isPrefixOf (x :: (xs ++ r)) = true := by
    rw [List.isPrefixOf_iff_prefix]
    exact ⟨r, rfl⟩
  rw [List.cons_append, Cut, hpre, if_pos rfl]
  simp

theorem splitFrom_skip (sep a r : GoString) :
    splitFrom sep a.length (a ++ r) = splitFrom sep 0 r := by
  induction a with
  | nil => rfl
  | cons c cs ih => simpa [splitFrom] using ih

theorem splitFrom_here (x : UInt8) (xs r : GoString) :
    splitFrom (x :: xs) 0 ((x :: xs) ++ r) = [] :: splitFrom (x :: xs) 0 r := by
  have hpre : (x :: xs).isPrefixOf (x :: (xs ++ r)) = true := by
    rw [List.isPrefixOf_iff_prefix]
    exact ⟨r, rfl⟩
  rw [List.cons_append, splitFrom, hpre, if_pos rfl]
  have := splitFrom_skip (x :: xs) xs r
  simpa using this

theorem splitFrom_append (sep a r l : GoString) (ls : List GoString) (h : noStart sep a r)
    (hr : splitFrom sep 0 r = l :: ls) : splitFrom sep 0 (a ++ r) = (a ++ l) :: ls := by
  induction a with
  | nil => simpa using hr
  | cons c cs ih =>
    obtain ⟨h1, h2⟩ := h
    have hpre : sep.isPrefixOf (c :: (cs ++ r)) = false := by
      rw [Bool.eq_false_iff, ne_eq, List.isPrefixOf_iff_prefix]
      simpa using h1
    rw [List.cons_append, splitFrom, hpre, ih h2]
    simp [consFirst]

/-- A line followed by the separator is the first piece of the split. -/
theorem splitFrom_line (x : UInt8) (xs a r : GoString) (h : noStart (x :: xs) a ((x :: xs) ++ r)) :
    splitFrom (x :: xs) 0 (a ++ ((x :: xs) ++ r)) = a :: splitFrom (x :: xs) 0 r := by
  have := splitFrom_append (x :: xs) a ((x :: xs) ++ r) [] _ h (splitFrom_here x xs r)
  simpa using this

/-- A last line without separator is the only piece of the split. -/
theorem splitFrom_last (sep a : GoString) (h : noStart sep a []) :
    splitFrom sep 0 a = [a] := by
  have := splitFrom_append sep a [] [] [] h rfl
  simpa using this

/-! ## Header lines -/

theorem noStart_of_not_mem (x : UInt8) (sep lit r : GoString) (h : x ∉ lit) :
    noStart (x :: sep) lit r := by
  induction lit with
  | nil => trivial
  | cons c cs ih =>
    refine ⟨?_, ih (fun hm => h (List.mem_cons_of_mem c hm))⟩
    intro hpre
    rw [List.cons_append, List.cons_prefix_cons] at hpre
    exact h (hpre.1 ▸ List.mem_cons_self c cs)

theorem clean_value (v : GoString) (hv : ¬ [13, 10] <:+: v) : Clean v :=
  fun sep r hr => noStart_value sep v r hv hr

theorem clean_lit (lit : GoString) (h : (13 : UInt8) ∉ lit) : Clean lit :=
  fun sep r _ => noStart_of_not_mem 13 (10 :: sep) lit r h

theorem clean_lit_append (lit b : GoString) (h : (13 : UInt8) ∉ lit) (hb : Clean b) :
    Clean (lit ++ b) :=
  fun sep r hr =>
    noStart_append _ lit b r (noStart_of_not_mem 13 (10 :: sep) lit (b ++ r) h) (hb sep r hr)

theorem clean_value_append (v b : GoString) (x : UInt8) (hv : ¬ [13, 10] <:+: v)
    (hx : b.head? = some x) (hne : x ≠ 10) (hb : Clean b) : Clean (v ++ b) := by
  intro sep r hr
  refine noStart_append _ v b r (noStart_value sep v (b ++ r) hv ?_) (hb sep r hr)
  rw [head?_append_of b r x hx]
  simpa using hne

theorem intercalate_cons_cons (sep a b : GoString) (ls : List GoString) :
    sep.intercalate (a :: b :: ls) = a ++ (sep ++ sep.intercalate (b :: ls)) := by
  simp [List.intercalate]

/-- Splitting a block of clean lines joined with CRLF gives the lines back. -/
theorem splitFrom_intercalate (l : GoString) (ls : List GoString)
    (h : ∀ x ∈ l :: ls, Clean x) :
    splitFrom [13, 10] 0 (([13, 10] : GoString).intercalate (l :: ls)) = l :: ls := by
  induction ls generalizing l with
  | nil =>
    have := splitFrom_last [13, 10] l (h l (List.mem_cons_self l []) [] [] (by simp))
    simpa [List.intercalate] using this
  | cons b ls ih =>
    rw [intercalate_cons_cons, splitFrom_line 13 [10] l _ ?_, ih b ?_]
    · intro x hx
      exact h x (List.mem_cons_of_mem l hx)
    · exact h l (List.mem_cons_self l _) [] _ (by simp)

/-- No blank line starts inside a block of clean lines joined with CRLF, when
every line after the first starts with a byte other than CR. -/
theorem noStart_intercalate (l : GoString) (ls : List GoString) (r : GoString)
    (h : ∀ x ∈ l :: ls, Clean x) (hs : ∀ x ∈ ls, ∃ b, x.head? = some b ∧ b ≠ 13)
    (hr : r.head? ≠ some 10) :
    noStart [13, 10, 13, 10] (([13, 10] : GoString).intercalate (l :: ls)) r := by
  induction ls generalizing l with
  | nil =>
    have := h l (List.mem_cons_self l []) [13, 10] r hr
    simpa [List.intercalate] using this
  | cons b ls ih =>
    rw [intercalate_cons_cons]
    have hrest := ih b (fun x hx => h x (List.mem_cons_of_mem l hx))
      (fun x hx => hs x (List.mem_cons_of_mem b hx))
    obtain ⟨y, hy, hy13⟩ := hs b (List.mem_cons_self b ls)
    have hhead : (([13, 10] : GoString).intercalate (b :: ls) ++ r).head? = some y := by
      cases ls with
      | nil =>
        have e : ([13, 10] : GoString).intercalate [b] = b := by simp [List.intercalate]
        rw [e]
        exact head?_append_of b r y hy
      | cons b2 ls =>
        rw [intercalate_cons_cons, List.append_assoc]
        exact head?_append_of b _ y hy
    refine noStart_append _ l _ r (h l (List.mem_cons_self l _) [13, 10] _ (by simp)) ?_
    refine noStart_append _ [13, 10] _ r ?_ hrest
    refine ⟨?_, ?_, trivial⟩
    · intro hpre
      rw [List.cons_append, List.cons_prefix_cons, List.cons_append, List.cons_prefix_cons,
        List.nil_append] at hpre
      obtain ⟨t, ht⟩ := hpre.2.2
      rw [← ht] at hhead
      exact hy13 (by simpa using hhead.symm)
    · intro hpre
      rw [List.cons_append, List.cons_prefix_cons] at hpre
      exact absurd hpre.1 (by decide)

theorem composeMessage_eq (c : SMTPConfig) (recipient : GoString) (d : ContactEmail) :
    composeMessage c recipient d =
      headerBlock c recipient d ++ (str "\r\n\r\n" ++ buildEmailBody d) := by
  have e1 : str "MIME-Version: 1.0\r\n" = str "MIME-Version: 1.0" ++ str "\r\n" := by decide
  have e2 : str "Content-Type: text/html; charset=\"UTF-8\"\r\n" =
      str "Content-Type: text/html; charset=\"UTF-8\"" ++ str "\r\n" := by decide
  have e3 : str "\r\n\r\n" = str "\r\n" ++ str "\r\n" := by decide
  simp only [composeMessage, headerBlock, headerLines]
  rw [e1, e2, e3]
  simp [List.intercalate, List.append_assoc]

theorem headerLines_clean (c : SMTPConfig) (recipient : GoString) (d : ContactEmail)
    (h1 : Contains c.From (str "\r\n") = false)
    (h2 : Contains c.FromName (str "\r\n") = false)
    (h3 : Contains recipient (str "\r\n") = false)
    (h4 : Contains d.Email (str "\r\n") = false)
    (h5 : Contains d.Name (str "\r\n") = false) :
    ∀ x ∈ headerLines c recipient d, Clean x := by
  have e : str "\r\n" = [13, 10] := by decide
  rw [Bool.eq_false_iff, ne_eq, contains_iff, e] at h1 h2 h3 h4 h5
  have hfrom : Clean (str "From: " ++
      (if c.FromName ≠ [] then c.FromName ++ str " <" ++ c.From ++ str ">" else c.From)) := by
    apply clean_lit_append _ _ (by decide)
    split_ifs
    · rw [List.append_assoc, List.append_assoc]
      apply clean_value_append c.FromName _ 32 h2 (head?_append_of _ _ 32 (by decide))
        (by decide)
      apply clean_lit_append _ _ (by decide)
      exact clean_value_append c.From _ 62 h1 (by decide) (by decide)
        (clean_lit _ (by decide))
    · exact clean_value _ h1
  intro x hx
  simp only [headerLines, List.mem_cons, List.mem_singleton, List.not_mem_nil, or_false] at hx
  rcases hx with rfl | rfl | rfl | rfl | rfl | rfl
  · exact hfrom
  · exact clean_lit_append _ _ (by decide) (clean_value _ h3)
  · exact clean_lit_append _ _ (by decide) (clean_value _ h4)
  · exact clean_lit_append _ _ (by decide)
      (clean_lit_append _ _ (by decide) (clean_value _ h5))
  · exact clean_lit _ (by decide)
  · exact clean_lit _ (by decide)

/-! ## Claims on escaping and on the LOGIN mechanism -/

/-- C1: `escapeHTML s` is `s` with every character replaced independently (the
five special characters by their entities, every other one kept), and the two
documented examples evaluate as stated. -/
theorem escapeHTML_replaces_each_character :
    (∀ s : GoString, escapeHTML s = s.flatMap escapeByte) ∧
    escapeHTML (str "<script>alert('xss')</script>") =
      str "&lt;script&gt;alert(&#39;xss&#39;)&lt;/script&gt;" ∧
    escapeHTML (str "a & b") = str "a &amp; b" :=
  ⟨escapeHTML_eq_escapeSpec, by decide, by decide⟩

/-- C3: with `more` set, `Next` answers `Username:` with the username and
`Password:` with the password, both without error, and answers any other
challenge (for one, `username:`) with an error and no reply; with `more` unset
it gives neither a reply nor an error. -/
theorem loginAuth_Next_table (a : loginAuth) :
    a.Next (str "Username:") true = (some a.username, none) ∧
    a.Next (str "Password:") true = (some a.password, none) ∧
    (∀ c : GoString, c ≠ str "Username:" → c ≠ str "Password:" →
      a.Next c true = (none, some (str "unknown LOGIN challenge: " ++ c))) ∧
    a.Next (str "username:") true =
      (none, some (str "unknown LOGIN challenge: username:")) ∧
    (∀ c : GoString, a.Next c false = (none, none)) := by
  refine ⟨?_, ?_, ?_, ?_, ?_⟩
  · simp [loginAuth.Next]
  · have h : str "Password:" ≠ str "Username:" := by decide
    simp [loginAuth.Next, h]
  · intro c h1 h2
    simp [loginAuth.Next, h1, h2]
  · have h1 : str "username:" ≠ str "Username:" := by decide
    have h2 : str "username:" ≠ str "Password:" := by decide
    have h3 : str "unknown LOGIN challenge: " ++ str "username:" =
        str "unknown LOGIN challenge: username:" := by decide
    simp [loginAuth.Next, h1, h2, h3]
  · intro c
    simp [loginAuth.Next]

/-- Witness of C3: the challenge `USERNAME:` is neither of the two prompts, so
it is refused with the protocol error. -/
theorem loginAuth_Next_table_witness :
    (LoginAuth (str "user") (str "secret")).Next (str "USERNAME:") true =
      (none, some (str "unknown LOGIN challenge: " ++ str "USERNAME:")) :=
  (loginAuth_Next_table (LoginAuth (str "user") (str "secret"))).2.2.1
    (str "USERNAME:") (by decide) (by decide)

/-- C9: escaping twice gives the same as escaping once exactly when the text
holds none of `& < > " '`, and such text is returned unchanged. -/
theorem escapeHTML_idempotent_iff_safe (s : GoString) :
    (escapeHTML (escapeHTML s) = escapeHTML s ↔ ∀ c ∈ s, isSpecial c = false) ∧
    ((∀ c ∈ s, isSpecial c = false) → escapeHTML s = s) := by
  have safe : (∀ c ∈ s, isSpecial c = false) → escapeHTML s = s := fun h => by
    rw [escapeHTML_eq_escapeSpec]
    exact escapeSpec_of_safe s h
  refine ⟨⟨fun hidem c hc => ?_, fun h => ?_⟩, safe⟩
  · by_contra hsp
    have hsp' : isSpecial c = true := by simpa using hsp
    have hamp := amp_mem_escapeSpec s c hc hsp'
    have hlt := length_lt_escapeSpec (escapeSpec s) hamp
    rw [escapeHTML_eq_escapeSpec, escapeHTML_eq_escapeSpec] at hidem
    rw [hidem] at hlt
    exact Nat.lt_irrefl _ hlt
  · rw [safe h, safe h]

/-- Witness of C9: `Hello` has no special character and is left as it is. -/
theorem escapeHTML_idempotent_iff_safe_witness :
    escapeHTML (str "Hello") = str "Hello" :=
  (escapeHTML_idempotent_iff_safe (str "Hello")).2 (by decide)


/-! ## Claim on the mail body -/

set_option maxRecDepth 100000 in
/-- C2: the body holds the escaped name, email and message, and the escaped
phone and location when these are given; with an empty phone it holds the
phone label markup nowhere, and with an empty location it holds the location
label markup nowhere, whatever the other fields are. -/
theorem buildEmailBody_fields (d : ContactEmail) :
    Contains (buildEmailBody d) (escapeHTML d.Name) = true ∧
    Contains (buildEmailBody d) (escapeHTML d.Email) = true ∧
    Contains (buildEmailBody d) (escapeHTML d.Message) = true ∧
    (d.Phone ≠ [] → Contains (buildEmailBody d) (escapeHTML d.Phone) = true) ∧
    (d.Location ≠ [] → Contains (buildEmailBody d) (escapeHTML d.Location) = true) ∧
    (d.Phone = [] → Contains (buildEmailBody d) phoneLabel = false) ∧
    (d.Location = [] → Contains (buildEmailBody d) locationLabel = false) := by
  refine ⟨?_, ?_, ?_, ?_, ?_, ?_, ?_⟩
  · rw [contains_iff, buildEmailBody_eq]
    exact infix_skip _ _ _ (infix_skip _ _ _ (infix_here _ _))
  · rw [contains_iff, buildEmailBody_eq]
    exact infix_skip _ _ _ (infix_skip _ _ _ (infix_skip _ _ _ (infix_skip _ _ _
      (infix_skip _ _ _ (infix_skip _ _ _ (infix_here _ _))))))
  · rw [contains_iff, buildEmailBody_eq]
    exact infix_skip _ _ _ (infix_skip _ _ _ (infix_skip _ _ _ (infix_skip _ _ _
      (infix_skip _ _ _ (infix_skip _ _ _ (infix_skip _ _ _ (infix_skip _ _ _
      (infix_skip _ _ _ (infix_skip _ _ _ (infix_skip _ _ _ (infix_skip _ _ _
      (infix_here _ _))))))))))))
  · intro h
    rw [contains_iff, buildEmailBody_eq, if_pos h]
    simp only [List.append_assoc]
    exact infix_skip _ _ _ (infix_skip _ _ _ (infix_skip _ _ _ (infix_skip _ _ _
      (infix_skip _ _ _ (infix_here _ _)))))
  · intro h
    rw [contains_iff, buildEmailBody_eq, if_pos h]
    simp only [List.append_assoc]
    exact infix_skip _ _ _ (infix_skip _ _ _ (infix_skip _ _ _ (infix_skip _ _ _
      (infix_skip _ _ _ (infix_skip _ _ _ (infix_skip _ _ _ (infix_skip _ _ _
      (infix_skip _ _ _ (infix_skip _ _ _ (infix_skip _ _ _ (infix_here _ _)))))))))))
  · intro h
    rw [Bool.eq_false_iff, ne_eq, contains_iff, buildEmailBody_eq, if_neg (by simp [h])]
    refine body_avoids phoneLabel phoneLabel.tail (by decide) d [] _ (fun r hr => by simpa using hr)
      ?_ (by decide) (by decide) (by decide) (by decide) (by decide) (by decide) (by decide)
      (by decide)
    intro r hr
    split_ifs
    · rw [List.append_assoc, List.append_assoc]
      exact row_avoids phoneLabel locationRowOpen rowClose d.Location r phoneLabel.tail
        (by decide) (by decide) (by decide) hr
    · simpa using hr
  · intro h
    rw [Bool.eq_false_iff, ne_eq, contains_iff, buildEmailBody_eq,
      if_neg (show ¬ d.Location ≠ [] by simp [h])]
    refine body_avoids locationLabel locationLabel.tail (by decide) d _ [] ?_
      (fun r hr => by simpa using hr)
      (by decide) (by decide) (by decide) (by decide) (by decide) (by decide) (by decide)
      (by decide)
    intro r hr
    split_ifs
    · rw [List.append_assoc, List.append_assoc]
      exact row_avoids locationLabel phoneRowOpen rowClose d.Phone r locationLabel.tail
        (by decide) (by decide) (by decide) hr
    · simpa using hr


set_option maxRecDepth 100000 in
/-- Witness of C2: the full submission shows its phone and location, and the
submission without them shows neither label. -/
theorem buildEmailBody_fields_witness :
    Contains (buildEmailBody fullSubmission) (escapeHTML fullSubmission.Phone) = true ∧
    Contains (buildEmailBody fullSubmission) (escapeHTML fullSubmission.Location) = true ∧
    Contains (buildEmailBody sampleSubmission) phoneLabel = false ∧
    Contains (buildEmailBody sampleSubmission) locationLabel = false :=
  ⟨(buildEmailBody_fields fullSubmission).2.2.2.1 (by decide),
   (buildEmailBody_fields fullSubmission).2.2.2.2.1 (by decide),
   (buildEmailBody_fields sampleSubmission).2.2.2.2.2.1 rfl,
   (buildEmailBody_fields sampleSubmission).2.2.2.2.2.2 rfl⟩

/-! ## Claim on the composed message -/

set_option maxRecDepth 100000 in
/-- C4 as stated fails: with a name that carries a blank line, the text after
the first blank line of the composed message is not the body, so no header
block followed by exactly the body is cut off. -/
theorem composeMessage_blank_line_in_name :
    ¬ ∃ hdr : GoString,
      Cut (composeMessage sampleConfig (str "info@example.com") injectedSubmission)
          (str "\r\n\r\n") = some (hdr, buildEmailBody injectedSubmission) ∧
      Split hdr (str "\r\n") =
        headerLines sampleConfig (str "info@example.com") injectedSubmission := by
  rintro ⟨hdr, hcut, -⟩
  have h : (Cut (composeMessage sampleConfig (str "info@example.com") injectedSubmission)
      (str "\r\n\r\n")).map (fun p => p.2.take 13) = some (str "<b>forged</b>") := by
    decide
  rw [hcut, Option.map_some', Option.some.injEq] at h
  have h' : (buildEmailBody injectedSubmission).take 13 = str "<b>forged</b>" := h
  exact absurd h' (by decide)

/-- C4, amended: when none of the sender address, sender name, recipient,
submitted email and submitted name holds a CRLF, the text before the first
blank line of the composed message splits at CRLF into exactly the six header
lines From, To, Reply-To, Subject, MIME-Version and Content-Type, in this
order, and the text after that blank line is exactly the body. -/
theorem composeMessage_headers (c : SMTPConfig) (recipient : GoString) (d : ContactEmail)
    (h1 : Contains c.From (str "\r\n") = false)
    (h2 : Contains c.FromName (str "\r\n") = false)
    (h3 : Contains recipient (str "\r\n") = false)
    (h4 : Contains d.Email (str "\r\n") = false)
    (h5 : Contains d.Name (str "\r\n") = false) :
    ∃ hdr : GoString,
      Cut (composeMessage c recipient d) (str "\r\n\r\n") = some (hdr, buildEmailBody d) ∧
      Split hdr (str "\r\n") =
        [ str "From: " ++
            (if c.FromName ≠ [] then c.FromName ++ str " <" ++ c.From ++ str ">"
             else c.From),
          str "To: " ++ recipient,
          str "Reply-To: " ++ d.Email,
          str "Subject: " ++ (str "Nuevo contacto desde web: " ++ d.Name),
          str "MIME-Version: 1.0",
          str "Content-Type: text/html; charset=\"UTF-8\"" ] := by
  have e : str "\r\n" = [13, 10] := by decide
  have e4 : str "\r\n\r\n" = [13, 10, 13, 10] := by decide
  have hclean := headerLines_clean c recipient d h1 h2 h3 h4 h5
  refine ⟨headerBlock c recipient d, ?_, ?_⟩
  · rw [composeMessage_eq, e4, cut_append, cut_here]
    · simp
    · unfold headerBlock
      rw [e]
      refine noStart_intercalate _ _ _ hclean ?_ (by simp)
      intro x hx
      simp only [List.mem_cons, List.mem_singleton, List.not_mem_nil, or_false] at hx
      rcases hx with rfl | rfl | rfl | rfl | rfl
      · exact ⟨84, head?_append_of _ _ 84 (by decide), by decide⟩
      · exact ⟨82, head?_append_of _ _ 82 (by decide), by decide⟩
      · exact ⟨83, head?_append_of _ _ 83 (by decide), by decide⟩
      · exact ⟨77, by decide, by decide⟩
      · exact ⟨67, by decide, by decide⟩
  · have := splitFrom_intercalate _ _ hclean
    unfold headerBlock
    rw [e]
    exact this

/-- Witness of C4 (amended): the sample configuration and submission have no
CRLF in any header value. -/
theorem composeMessage_headers_witness :
    ∃ hdr : GoString,
      Cut (composeMessage sampleConfig (str "info@example.com") sampleSubmission)
          (str "\r\n\r\n") = some (hdr, buildEmailBody sampleSubmission) ∧
      Split hdr (str "\r\n") =
        [ str "From: " ++
            (if sampleConfig.FromName ≠ [] then
              sampleConfig.FromName ++ str " <" ++ sampleConfig.From ++ str ">"
             else sampleConfig.From),
          str "To: " ++ str "info@example.com",
          str "Reply-To: " ++ sampleSubmission.Email,
          str "Subject: " ++ (str "Nuevo contacto desde web: " ++ sampleSubmission.Name),
          str "MIME-Version: 1.0",
          str "Content-Type: text/html; charset=\"UTF-8\"" ] :=
  composeMessage_headers sampleConfig (str "info@example.com") sampleSubmission
    (by decide) (by decide) (by decide) (by decide) (by decide)


/-! ## Claims on the session -/

theorem contains_singleton (s : GoString) (c : UInt8) : Contains s [c] = true ↔ c ∈ s := by
  induction s with
  | nil => simp [Contains]
  | cons x xs ih =>
    rw [Contains, Bool.or_eq_true, ih, List.mem_cons]
    have : List.isPrefixOf [c] (x :: xs) = true ↔ c = x := by
      simp [List.isPrefixOf]
    rw [this]

theorem sendWithTLS_first_call (net : Net) (config : SMTPConfig)
    (recipient msg addr : GoString) :
    (sendWithTLS net config recipient msg addr).2.head? =
      some (.tlsDial 0 addr config.Host) := by
  unfold sendWithTLS
  simp only [attempt]
  split <;> rfl

theorem sendWithSTARTTLS_first_call (net : Net) (config : SMTPConfig)
    (recipient msg addr : GoString) :
    (sendWithSTARTTLS net config recipient msg addr).2.head? = some (.smtpDial 0 addr) := by
  unfold sendWithSTARTTLS
  simp only [attempt]
  split <;> rfl

/-- On the STARTTLS path, when PLAIN and then LOGIN fail, the returned error is
built from the LOGIN error alone. -/
theorem sendWithSTARTTLS_auth_error (net : Net) (config : SMTPConfig)
    (recipient msg addr : GoString) (e1 e2 : Error)
    (hdial : net (.smtpDial 0 addr) = none)
    (hstart : net (.startTLS 0 config.Host) = none)
    (hplain : net (.authPlain 0 [] config.User config.Password config.Host) = some e1)
    (hlogin : net (.authLogin 0 (LoginAuth config.User config.Password)) = some e2) :
    (sendWithSTARTTLS net config recipient msg addr).1 =
      some (str "SMTP auth failed: " ++ e2) := by
  simp [sendWithSTARTTLS, attempt, deferred, failWith, hdial, hstart, hplain, hlogin]

/-- On the implicit-TLS path, when PLAIN and then LOGIN fail, the returned
error holds both errors. -/
theorem sendWithTLS_auth_error (net : Net) (config : SMTPConfig)
    (recipient msg addr : GoString) (e1 e2 : Error)
    (hdial0 : net (.tlsDial 0 addr config.Host) = none)
    (hclient0 : net (.newClient 0 config.Host) = none)
    (hplain : net (.authPlain 0 [] config.User config.Password config.Host) = some e1)
    (hdial1 : net (.tlsDial 1 addr config.Host) = none)
    (hclient1 : net (.newClient 1 config.Host) = none)
    (hlogin : net (.authLogin 1 (LoginAuth config.User config.Password)) = some e2) :
    (sendWithTLS net config recipient msg addr).1 =
      some (str "SMTP auth failed (tried PLAIN: " ++ e1 ++ str ", LOGIN: " ++ e2 ++ str ")") := by
  simp [sendWithTLS, attempt, thenRun, failWith, hdial0, hclient0, hplain, hdial1,
    hclient1, hlogin]

set_option maxRecDepth 100000 in
/-- C5, at the failing input: with a relay that refuses PLAIN with
`535 PLAIN rejected` and LOGIN with `504 LOGIN unsupported`, the implicit-TLS
path returns an error that holds both texts, while the STARTTLS path returns
`SMTP auth failed: 504 LOGIN unsupported`, which does not hold the PLAIN error. -/
theorem starttls_drops_plain_error :
    (sendWithTLS authRejectingNet sampleConfig (str "info@example.com") (str "message")
        (str "smtp.test.com:465")).1 =
      some (str ("SMTP auth failed (tried PLAIN: 535 PLAIN rejected, " ++
        "LOGIN: 504 LOGIN unsupported)")) ∧
    (sendWithSTARTTLS authRejectingNet sampleConfig (str "info@example.com") (str "message")
        (str "smtp.test.com:587")).1 =
      some (str "SMTP auth failed: 504 LOGIN unsupported") ∧
    Contains (str "SMTP auth failed: 504 LOGIN unsupported") (str "504 LOGIN unsupported") =
      true ∧
    Contains (str "SMTP auth failed: 504 LOGIN unsupported") (str "535 PLAIN rejected") =
      false := by
  decide

/-- C6: on the implicit-TLS path, when PLAIN fails and the reconnect, LOGIN and
the envelope, data and QUIT steps succeed, the result is success; the first
connection is closed after the PLAIN failure and MAIL, RCPT and DATA are sent
on the second connection. -/
theorem sendWithTLS_login_after_reconnect (net : Net) (config : SMTPConfig)
    (recipient msg addr : GoString) (e1 : Error)
    (hdial0 : net (.tlsDial 0 addr config.Host) = none)
    (hclient0 : net (.newClient 0 config.Host) = none)
    (hplain : net (.authPlain 0 [] config.User config.Password config.Host) = some e1)
    (hdial1 : net (.tlsDial 1 addr config.Host) = none)
    (hclient1 : net (.newClient 1 config.Host) = none)
    (hlogin : net (.authLogin 1 (LoginAuth config.User config.Password)) = none)
    (hmail : net (.mail 1 config.From) = none)
    (hrcpt : net (.rcpt 1 recipient) = none)
    (hdata : net (.data 1) = none)
    (hwrite : net (.write 1 msg) = none)
    (hclose : net (.closeWriter 1) = none)
    (hquit : net (.quit 1) = none) :
    sendWithTLS net config recipient msg addr =
      (none,
        [ .tlsDial 0 addr config.Host, .newClient 0 config.Host,
          .authPlain 0 [] config.User config.Password config.Host,
          .clientClose 0, .connClose 0,
          .tlsDial 1 addr config.Host, .newClient 1 config.Host,
          .authLogin 1 (LoginAuth config.User config.Password),
          .mail 1 config.From, .rcpt 1 recipient, .data 1, .write 1 msg, .closeWriter 1,
          .quit 1, .connClose 1, .clientClose 1 ]) := by
  simp [sendWithTLS, sendEnvelope, attempt, thenRun, deferred, hdial0, hclient0, hplain,
    hdial1, hclient1, hlogin, hmail, hrcpt, hdata, hwrite, hclose, hquit]

/-- Witness of C6: a relay that refuses PLAIN only. -/
theorem sendWithTLS_login_after_reconnect_witness :
    (sendWithTLS plainRejectingNet sampleConfig (str "info@example.com") (str "message")
      (str "smtp.test.com:465")).1 = none :=
  congrArg Prod.fst
    (sendWithTLS_login_after_reconnect plainRejectingNet sampleConfig
      (str "info@example.com") (str "message") (str "smtp.test.com:465")
      (str "535 PLAIN rejected") rfl rfl rfl rfl rfl rfl rfl rfl rfl rfl rfl rfl)

/-- C7: with an empty `CONTACT_EMAIL`, `SendContactEmail` returns the
configuration error and makes no call to the network at all, whatever the
submission and the rest of the configuration. -/
theorem SendContactEmail_without_recipient (env : Env) (net : Net) (data : ContactEmail)
    (h : env (str "CONTACT_EMAIL") = []) :
    SendContactEmail env net data = (some (str "CONTACT_EMAIL not configured"), []) := by
  simp [SendContactEmail, h]

/-- Witness of C7: the empty environment. -/
theorem SendContactEmail_without_recipient_witness :
    SendContactEmail emptyEnv acceptingNet sampleSubmission =
      (some (str "CONTACT_EMAIL not configured"), []) :=
  SendContactEmail_without_recipient emptyEnv acceptingNet sampleSubmission rfl

/-- C8: with a recipient set, `SendContactEmail` is `sendWithTLS` when the port
is `465` and `sendWithSTARTTLS` otherwise, called with the address `host:port`
and the composed message; its first network call is the TLS dial exactly when
the port is `465`, and the plain SMTP dial exactly when it is not. -/
theorem SendContactEmail_transport (env : Env) (net : Net) (data : ContactEmail)
    (h : env (str "CONTACT_EMAIL") ≠ []) :
    ((getConfig env).Port = str "465" →
      SendContactEmail env net data =
        sendWithTLS net (getConfig env) (env (str "CONTACT_EMAIL"))
          (composeMessage (getConfig env) (env (str "CONTACT_EMAIL")) data)
          ((getConfig env).Host ++ str ":" ++ (getConfig env).Port)) ∧
    ((getConfig env).Port ≠ str "465" →
      SendContactEmail env net data =
        sendWithSTARTTLS net (getConfig env) (env (str "CONTACT_EMAIL"))
          (composeMessage (getConfig env) (env (str "CONTACT_EMAIL")) data)
          ((getConfig env).Host ++ str ":" ++ (getConfig env).Port)) ∧
    ((SendContactEmail env net data).2.head? =
        some (.tlsDial 0 ((getConfig env).Host ++ str ":" ++ (getConfig env).Port)
          (getConfig env).Host) ↔
      (getConfig env).Port = str "465") ∧
    ((SendContactEmail env net data).2.head? =
        some (.smtpDial 0 ((getConfig env).Host ++ str ":" ++ (getConfig env).Port)) ↔
      (getConfig env).Port ≠ str "465") := by
  by_cases hp : (getConfig env).Port = str "465"
  · have hrun : SendContactEmail env net data =
        sendWithTLS net (getConfig env) (env (str "CONTACT_EMAIL"))
          (composeMessage (getConfig env) (env (str "CONTACT_EMAIL")) data)
          ((getConfig env).Host ++ str ":" ++ (getConfig env).Port) := by
      simp [SendContactEmail, h, hp]
    refine ⟨fun _ => hrun, fun hne => absurd hp hne, ?_, ?_⟩
    · rw [hrun, sendWithTLS_first_call]
      simp [hp]
    · rw [hrun, sendWithTLS_first_call]
      simp [hp]
  · have hrun : SendContactEmail env net data =
        sendWithSTARTTLS net (getConfig env) (env (str "CONTACT_EMAIL"))
          (composeMessage (getConfig env) (env (str "CONTACT_EMAIL")) data)
          ((getConfig env).Host ++ str ":" ++ (getConfig env).Port) := by
      simp [SendContactEmail, h, hp]
    refine ⟨fun he => absurd he hp, fun _ => hrun, ?_, ?_⟩
    · rw [hrun, sendWithSTARTTLS_first_call]
      simp [hp]
    · rw [hrun, sendWithSTARTTLS_first_call]
      simp [hp]

/-- Witness of C8: with port `587` the first call is the plain SMTP dial to
`smtp.test.com:587`. -/
theorem SendContactEmail_transport_witness :
    (SendContactEmail sampleEnv acceptingNet sampleSubmission).2.head? =
      some (.smtpDial 0 ((getConfig sampleEnv).Host ++ str ":" ++ (getConfig sampleEnv).Port)) :=
  (SendContactEmail_transport sampleEnv acceptingNet sampleSubmission (by decide)).2.2.2.mpr
    (by decide)

/-! ## Claim on the handler -/

/-- C10: for a request that was decoded, the handler answers 400 with
`success` false exactly when the name, the email or the message is empty or the
email has no `@`; it then calls neither the Turnstile verification nor the
mailer; and a request with a name, a message and an email with `@` is never
answered with 400. -/
theorem ContactHandler_validation (verify : GoString → GoString → Option Error)
    (send : ContactEmail → Option Error) (contentType remoteAddr : GoString)
    (req : ContactRequest) :
    (((ContactHandler verify send contentType (some req) remoteAddr).status = 400 ∧
        (ContactHandler verify send contentType (some req) remoteAddr).body.Success = false) ↔
      (req.Name = [] ∨ req.Email = [] ∨ req.Message = [] ∨ (64 : UInt8) ∉ req.Email)) ∧
    ((req.Name = [] ∨ req.Email = [] ∨ req.Message = [] ∨ (64 : UInt8) ∉ req.Email) →
      (ContactHandler verify send contentType (some req) remoteAddr).calls = []) ∧
    (req.Name ≠ [] → req.Message ≠ [] → (64 : UInt8) ∈ req.Email →
      (ContactHandler verify send contentType (some req) remoteAddr).status ≠ 400) := by
  have e : str "@" = [64] := by decide
  have hparse : ContactHandler verify send contentType (some req) remoteAddr =
      if req.Name = [] ∨ req.Email = [] ∨ req.Message = [] then
        sendError (str "Nombre, email y mensaje son obligatorios") 400 []
      else if ¬ Contains req.Email (str "@") then
        sendError (str "Email inválido") 400 []
      else
        match verify req.Turnstile remoteAddr with
        | some _ =>
          sendError (str "Verificación de seguridad fallida") 403
            [.verify req.Turnstile remoteAddr]
        | none =>
          match send { Name := req.Name, Phone := req.Phone, Email := req.Email,
                       Location := req.Location, Message := req.Message } with
          | some _ =>
            sendError (str "Error al enviar el mensaje") 500
              [.verify req.Turnstile remoteAddr,
               .send { Name := req.Name, Phone := req.Phone, Email := req.Email,
                       Location := req.Location, Message := req.Message }]
          | none =>
            { status := 200
              body :=
                { Success := true
                  Message := str ("Mensaje enviado correctamente. " ++
                    "Nos pondremos en contacto contigo pronto.") }
              calls := [.verify req.Turnstile remoteAddr,
                .send { Name := req.Name, Phone := req.Phone, Email := req.Email,
                        Location := req.Location, Message := req.Message }] } := by
    unfold ContactHandler
    by_cases hj : Contains contentType (str "application/json") = true
    · simp only [hj, if_true]
    · by_cases hm : Contains contentType (str "multipart/form-data") = true
      · simp only [hj, hm, if_true, if_false, Bool.false_eq_true]
      · simp only [hj, hm, if_false, Bool.false_eq_true]
  rw [hparse]
  by_cases hreq : req.Name = [] ∨ req.Email = [] ∨ req.Message = []
  · have hinv : req.Name = [] ∨ req.Email = [] ∨ req.Message = [] ∨ (64 : UInt8) ∉ req.Email := by
      rcases hreq with h | h | h
      · exact Or.inl h
      · exact Or.inr (Or.inl h)
      · exact Or.inr (Or.inr (Or.inl h))
    rw [if_pos hreq]
    refine ⟨⟨fun _ => hinv, fun _ => ⟨rfl, rfl⟩⟩, fun _ => rfl, ?_⟩
    intro hn hm hat
    rcases hreq with h | h | h
    · exact absurd h hn
    · rw [h] at hat
      cases hat
    · exact absurd h hm
  · rw [if_neg hreq]
    push_neg at hreq
    obtain ⟨hn, he, hm⟩ := hreq
    by_cases hat : (64 : UInt8) ∈ req.Email
    · have hc : Contains req.Email (str "@") = true := by
        rw [e]
        exact (contains_singleton _ _).mpr hat
      have hvalid : ¬ (req.Name = [] ∨ req.Email = [] ∨ req.Message = [] ∨
          (64 : UInt8) ∉ req.Email) := by
        rintro (h | h | h | h)
        · exact hn h
        · exact he h
        · exact hm h
        · exact h hat
      rw [if_neg (by simp [hc])]
      have hstatus :
          (match verify req.Turnstile remoteAddr with
          | some _ =>
            sendError (str "Verificación de seguridad fallida") 403
              [.verify req.Turnstile remoteAddr]
          | none =>
            match send { Name := req.Name, Phone := req.Phone, Email := req.Email,
                         Location := req.Location, Message := req.Message } with
            | some _ =>
              sendError (str "Error al enviar el mensaje") 500
                [.verify req.Turnstile remoteAddr,
                 .send { Name := req.Name, Phone := req.Phone, Email := req.Email,
                         Location := req.Location, Message := req.Message }]
            | none =>
              { status := 200
                body :=
                  { Success := true
                    Message := str ("Mensaje enviado correctamente. " ++
                      "Nos pondremos en contacto contigo pronto.") }
                calls := [.verify req.Turnstile remoteAddr,
                  .send { Name := req.Name, Phone := req.Phone, Email := req.Email,
                          Location := req.Location, Message := req.Message }] }).status
            ≠ 400 := by
        split
        · simp [sendError]
        · split <;> simp [sendError]
      exact ⟨⟨fun h => absurd h.1 hstatus, fun h => absurd h hvalid⟩,
        fun h => absurd h hvalid, fun _ _ _ => hstatus⟩
    · have hc : ¬ Contains req.Email (str "@") = true := by
        rw [e, contains_singleton]
        exact hat
      rw [if_pos hc]
      exact ⟨⟨fun _ => Or.inr (Or.inr (Or.inr hat)), fun _ => ⟨rfl, rfl⟩⟩, fun _ => rfl,
        fun _ _ h => absurd h hat⟩

/-- Witness of C10: the request with the email `invalid` is answered with 400
and reaches no collaborator, and the valid form request is not answered 400. -/
theorem ContactHandler_validation_witness :
    (ContactHandler (fun _ _ => none) (fun _ => none) (str "application/json")
      (some invalidEmailRequest) (str "192.0.2.1:1234")).calls = [] ∧
    (ContactHandler (fun _ _ => none) (fun _ => none)
      (str "application/x-www-form-urlencoded") (some validRequest)
      (str "192.0.2.1:1234")).status ≠ 400 :=
  ⟨(ContactHandler_validation (fun _ _ => none) (fun _ => none) (str "application/json")
      (str "192.0.2.1:1234") invalidEmailRequest).2.1 (by decide),
   (ContactHandler_validation (fun _ _ => none) (fun _ => none)
      (str "application/x-www-form-urlencoded") (str "192.0.2.1:1234") validRequest).2.2
      (by decide) (by decide) (by decide)⟩


/-! ## Claim on the connections of `sendWithTLS` -/

theorem scopedFrom_sound (net : Net) (viaClient : Bool) (conns : List Nat) (l : List Op)
    (h0 : conns.length ≤ 1) (h : scopedFrom net viaClient conns l) :
    (∀ p, p <+: l → (p.foldl (connStep net viaClient) conns).length ≤ 1) ∧
    (∀ p op rest, l = p ++ op :: rest → isReconnect op = true →
      p.foldl (connStep net viaClient) conns = []) ∧
    l.foldl (connStep net viaClient) conns = [] := by
  induction l generalizing conns with
  | nil =>
    refine ⟨?_, ?_, h⟩
    · intro p hp
      rw [List.prefix_nil.mp hp]
      exact h0
    · intro p op rest hl
      cases p <;> cases hl
  | cons a as ih =>
    obtain ⟨hre, hlen, hrest⟩ := h
    obtain ⟨ih1, ih2, ih3⟩ := ih _ hlen hrest
    refine ⟨?_, ?_, ih3⟩
    · intro p hp
      rcases List.prefix_cons_iff.mp hp with rfl | ⟨t, rfl, ht⟩
      · exact h0
      · exact ih1 t ht
    · intro p op rest hl hop
      cases p with
      | nil =>
        rw [List.nil_append, List.cons.injEq] at hl
        rw [← hl.1] at hop
        exact hre hop
      | cons x p =>
        rw [List.cons_append, List.cons.injEq] at hl
        rw [← hl.1]
        exact ih2 p op rest hl.2 hop

theorem scopedFrom_neutral (net : Net) (viaClient : Bool) (conns : List Nat)
    (e l : List Op) (he : ∀ op ∈ e, isNeutral op = true) (h0 : conns.length ≤ 1)
    (h : scopedFrom net viaClient conns l) : scopedFrom net viaClient conns (e ++ l) := by
  induction e with
  | nil => exact h
  | cons a as ih =>
    have ha := he a (List.mem_cons_self a as)
    have hstep : connStep net viaClient conns a = conns := by
      cases a <;> first | rfl | cases ha
    have hre : isReconnect a = false := by
      cases a <;> first | rfl | cases ha
    refine ⟨fun hr => ?_, ?_, ?_⟩
    · rw [hre] at hr
      cases hr
    · rw [hstep]
      exact h0
    · rw [hstep]
      exact ih (fun op hop => he op (List.mem_cons_of_mem a hop))

theorem sendEnvelope_neutral (net : Net) (client : Nat) (config : SMTPConfig)
    (recipient msg : GoString) :
    ∀ op ∈ (sendEnvelope net client config recipient msg).2, isNeutral op = true := by
  intro op hop
  unfold sendEnvelope attempt failWith at hop
  revert hop
  repeat' split
  all_goals
    simp only [List.mem_cons, List.mem_singleton, List.not_mem_nil, or_false]
    intro hop
    rcases hop with rfl | rfl | rfl | rfl | rfl | rfl <;> rfl

/-- The calls of `sendWithTLS` keep its connections scoped, on every path. -/
theorem sendWithTLS_scopedFrom (net : Net) (viaClient : Bool) (config : SMTPConfig)
    (recipient msg addr : GoString) :
    scopedFrom net viaClient [] (sendWithTLS net config recipient msg addr).2 := by
  have henv : ∀ k : Nat, scopedFrom net viaClient [k]
      ((sendEnvelope net k config recipient msg).2 ++ [.connClose k, .clientClose k]) := by
    intro k
    refine scopedFrom_neutral net viaClient [k] _ _
      (sendEnvelope_neutral net k config recipient msg) (by simp) ?_
    cases viaClient <;> simp [scopedFrom, connStep, isReconnect]
  unfold sendWithTLS
  cases h0 : net (.tlsDial 0 addr config.Host) with
  | some e => simp [attempt, failWith, h0, scopedFrom, connStep, isReconnect]
  | none =>
    cases h1 : net (.newClient 0 config.Host) with
    | some e => simp [attempt, failWith, h0, h1, scopedFrom, connStep, isReconnect]
    | none =>
      cases h2 : net (.authPlain 0 [] config.User config.Password config.Host) with
      | none =>
        simp only [attempt, deferred, h0, h1, h2]
        refine ⟨by simp [isReconnect], by simp [connStep, h0], ?_⟩
        refine ⟨by simp [isReconnect], by simp [connStep, h0], ?_⟩
        refine ⟨by simp [isReconnect], by simp [connStep, h0], ?_⟩
        simpa [connStep, h0] using henv 0
      | some e1 =>
        cases h3 : net (.tlsDial 1 addr config.Host) with
        | some e =>
          cases viaClient <;>
            simp [attempt, thenRun, failWith, h0, h1, h2, h3, scopedFrom, connStep,
              isReconnect]
        | none =>
          cases h4 : net (.newClient 1 config.Host) with
          | some e =>
            cases viaClient <;>
              simp [attempt, thenRun, failWith, h0, h1, h2, h3, h4, scopedFrom, connStep,
                isReconnect]
          | none =>
            cases h5 : net (.authLogin 1 (LoginAuth config.User config.Password)) with
            | some e2 =>
              cases viaClient <;>
                simp [attempt, thenRun, failWith, h0, h1, h2, h3, h4, h5, scopedFrom,
                  connStep, isReconnect]
            | none =>
              simp only [attempt, thenRun, deferred, h0, h1, h2, h3, h4, h5]
              refine ⟨by simp [isReconnect], by simp [connStep, h0], ?_⟩
              refine ⟨by simp [isReconnect], by simp [connStep, h0], ?_⟩
              refine ⟨by simp [isReconnect], by simp [connStep, h0], ?_⟩
              refine ⟨by simp [isReconnect],
                by cases viaClient <;> simp [connStep, h0], ?_⟩
              refine ⟨by simp [isReconnect],
                by cases viaClient <;> simp [connStep, h0], ?_⟩
              refine ⟨by cases viaClient <;> simp [connStep, h0],
                by cases viaClient <;> simp [connStep, h0, h3], ?_⟩
              refine ⟨by simp [isReconnect],
                by cases viaClient <;> simp [connStep, h0, h3], ?_⟩
              refine ⟨by simp [isReconnect],
                by cases viaClient <;> simp [connStep, h0, h3], ?_⟩
              have hconns : connStep net viaClient (connStep net viaClient
                  (connStep net viaClient (connStep net viaClient (connStep net viaClient
                  (connStep net viaClient (connStep net viaClient (connStep net viaClient []
                  (.tlsDial 0 addr config.Host)) (.newClient 0 config.Host))
                  (.authPlain 0 [] config.User config.Password config.Host))
                  (.clientClose 0)) (.connClose 0)) (.tlsDial 1 addr config.Host))
                  (.newClient 1 config.Host))
                  (.authLogin 1 (LoginAuth config.User config.Password)) = [1] := by
                cases viaClient <;> simp [connStep, h0, h3]
              rw [hconns]
              exact henv 1

/-- C11: in every run of `sendWithTLS`, whatever succeeds or fails, at most one
connection is open after each call; no connection is open when the reconnect
dial is made; and no connection is open when the function returns. This holds
whether or not closing a client is counted as closing its connection. -/
theorem sendWithTLS_connections_scoped (net : Net) (viaClient : Bool) (config : SMTPConfig)
    (recipient msg addr : GoString) :
    (∀ p, p <+: (sendWithTLS net config recipient msg addr).2 →
      (tlsOpen net viaClient p).length ≤ 1) ∧
    (∀ p rest, (sendWithTLS net config recipient msg addr).2 =
        p ++ .tlsDial 1 addr config.Host :: rest →
      tlsOpen net viaClient p = []) ∧
    tlsOpen net viaClient (sendWithTLS net config recipient msg addr).2 = [] := by
  obtain ⟨h1, h2, h3⟩ := scopedFrom_sound net viaClient [] _ (by simp)
    (sendWithTLS_scopedFrom net viaClient config recipient msg addr)
  exact ⟨h1, fun p rest hp => h2 p _ rest hp rfl, h3⟩

/-- Witness of C11: with a relay that refuses PLAIN, the first connection is
open after the first dial, closed again when the reconnect dial is made, and
the second one is closed at the return. -/
theorem sendWithTLS_connections_scoped_witness :
    tlsOpen plainRejectingNet false
      [.tlsDial 0 (str "smtp.test.com:465") sampleConfig.Host] = [0] ∧
    (tlsOpen plainRejectingNet false
      [.tlsDial 0 (str "smtp.test.com:465") sampleConfig.Host] ).length ≤ 1 ∧
    tlsOpen plainRejectingNet false
      [ .tlsDial 0 (str "smtp.test.com:465") sampleConfig.Host,
        .newClient 0 sampleConfig.Host,
        .authPlain 0 [] sampleConfig.User sampleConfig.Password sampleConfig.Host,
        .clientClose 0, .connClose 0 ] = [] ∧
    tlsOpen plainRejectingNet false
      (sendWithTLS plainRejectingNet sampleConfig (str "info@example.com") (str "message")
        (str "smtp.test.com:465")).2 = [] :=
  ⟨by decide,
   (sendWithTLS_connections_scoped plainRejectingNet false sampleConfig
      (str "info@example.com") (str "message") (str "smtp.test.com:465")).1 _
      ⟨[ .newClient 0 sampleConfig.Host,
         .authPlain 0 [] sampleConfig.User sampleConfig.Password sampleConfig.Host,
         .clientClose 0, .connClose 0,
         .tlsDial 1 (str "smtp.test.com:465") sampleConfig.Host,
         .newClient 1 sampleConfig.Host,
         .authLogin 1 (LoginAuth sampleConfig.User sampleConfig.Password),
         .mail 1 sampleConfig.From, .rcpt 1 (str "info@example.com"), .data 1,
         .write 1 (str "message"), .closeWriter 1, .quit 1, .connClose 1, .clientClose 1 ],
       rfl⟩,
   (sendWithTLS_connections_scoped plainRejectingNet false sampleConfig
      (str "info@example.com") (str "message") (str "smtp.test.com:465")).2.1 _
      [ .newClient 1 sampleConfig.Host,
        .authLogin 1 (LoginAuth sampleConfig.User sampleConfig.Password),
        .mail 1 sampleConfig.From, .rcpt 1 (str "info@example.com"), .data 1,
        .write 1 (str "message"), .closeWriter 1, .quit 1, .connClose 1, .clientClose 1 ]
      rfl,
   (sendWithTLS_connections_scoped plainRejectingNet false sampleConfig
      (str "info@example.com") (str "message") (str "smtp.test.com:465")).2.2⟩

end NginxMailer
